import Mathlib

/-
Verification development for the `mapreduce` backend package: the bidirectional
compiler between round computations and their canonical factored forms
(`MapReduceForm`, `DistributeAggregateForm`, `BroadcastForm`).

The package's `__init__.py` documents the data model and the round semantics of
each form in pseudocode; the compiler passes themselves (shape matcher, form
validator, form synthesizer) live in `forms.py` / `form_utils.py` and are
modelled here from the design document, faithful to its words.
-/

set_option maxHeartbeats 1000000

namespace MapReduceBackend

/-- The three secure-aggregation channels of a client update: the values fed,
positionally, to `federated_secure_sum_bitwidth`, `federated_secure_sum` and
`federated_secure_modular_sum` (module docstring, pseudocode lines for
`client_updates[1]`..`client_updates[3]`). -/
abbrev SecureChannels : Type := Int × Int × Int

/-- The result of `work`: per the docstring, `work` has declared type
signature `(<D,C> -> <U,V>)`, a two-tuple whose first index feeds the plain
`federated_aggregate` channel and whose second index `V` holds the secure-sum
channels that the aggregation step demultiplexes. -/
abbrev ClientUpdate (U : Type) : Type := U × SecureChannels

/-- Modelled from the spec: semantics of `federated_aggregate` restricted to a
single accumulator chain (the docstring notes all accumulation may happen at
the server); `merge` is only exercised by hierarchical deployments. -/
def plainAggregate {U A R : Type} (zero : Unit → A) (accumulate : A × U → A)
    (report : A → R) (updates : List U) : R :=
  report (updates.foldl (fun a u => accumulate (a, u)) (zero ()))

/-- Modelled from the spec: `federated_secure_sum_bitwidth` combines the
per-client values by summation; the bitwidth block is a runtime parameter of
the secure protocol and does not change the combined value. -/
def secureSumBitwidth (vals : List Int) (bitwidth : Int) : Int :=
  vals.foldl (fun a v => a + v) 0

/-- Modelled from the spec: `federated_secure_sum` combines the per-client
values by summation; the max-input block is a runtime parameter of the secure
protocol and does not change the combined value. -/
def secureSumMaxInput (vals : List Int) (maxInput : Int) : Int :=
  vals.foldl (fun a v => a + v) 0

/-- Modelled from the spec: `federated_secure_modular_sum` combines the
per-client values by summation modulo the modulus parameter. -/
def secureModularSum (vals : List Int) (modulus : Int) : Int :=
  (vals.foldl (fun a v => a + v) 0) % modulus

/-- The seven-function form ("MapReduceForm"): seven named local blocks plus
the three secure-sum parameter blocks, with the type signatures documented in
the module docstring (`prepare : S -> C`, `work : <D,C> -> <U,V>`,
`zero : -> A`, `accumulate : <A,U> -> A`, `merge : <A,A> -> A`,
`report : A -> R`, `update : <S,R×secure> -> <S,X>`). Local blocks are opaque
pure functions, embedded as Lean functions. -/
structure MapReduceForm (S D C U A R X : Type) where
  prepare : S → C
  work : D × C → ClientUpdate U
  zero : Unit → A
  accumulate : A × U → A
  merge : A × A → A
  report : A → R
  secure_sum_bitwidth : Int
  secure_sum_max_input : Int
  secure_modular_sum_modulus : Int
  update : S × (R × SecureChannels) → S × X

/-- Round semantics of a `MapReduceForm`, transcribed from the `round_comp`
pseudocode in the module docstring: broadcast the prepared server state, map
`work` over the clients, demultiplex the client updates into the four
aggregation intrinsics, and apply `update` to the global update. -/
def MapReduceForm.round {S D C U A R X : Type} (f : MapReduceForm S D C U A R X)
    (server_state : S) (client_data : List D) : S × X :=
  let client_input := f.prepare server_state
  let client_updates := client_data.map fun d => f.work (d, client_input)
  let simple_agg := plainAggregate f.zero f.accumulate f.report
    (client_updates.map fun cu => cu.1)
  let sec_bitwidth := secureSumBitwidth (client_updates.map fun cu => cu.2.1)
    f.secure_sum_bitwidth
  let sec_sum := secureSumMaxInput (client_updates.map fun cu => cu.2.2.1)
    f.secure_sum_max_input
  let sec_modular := secureModularSum (client_updates.map fun cu => cu.2.2.2)
    f.secure_modular_sum_modulus
  f.update (server_state, (simple_agg, sec_bitwidth, sec_sum, sec_modular))

/-- The five-lambda form ("DistributeAggregateForm"): five blocks with the
type signatures documented in the module docstring
(`server_prepare : S -> <B_I,T>`, `server_to_client_broadcast : B_I -> B_O`,
`client_work : <D,B_O> -> A_I`, `client_to_server_aggregation : <T,A_I> -> A_O`
over the collection of client values, `server_result : <T,A_O> -> <S,X>`). -/
structure DistributeAggregateForm (S D X BI BO AI AO T : Type) where
  server_prepare : S → BI × T
  server_to_client_broadcast : BI → BO
  client_work : D × BO → AI
  client_to_server_aggregation : T × List AI → AO
  server_result : T × AO → S × X

/-- Round semantics of a `DistributeAggregateForm`, transcribed from the
`round_comp` pseudocode in the module docstring. -/
def DistributeAggregateForm.round {S D X BI BO AI AO T : Type}
    (g : DistributeAggregateForm S D X BI BO AI AO T)
    (server_state : S) (client_data : List D) : S × X :=
  let prep := g.server_prepare server_state
  let context_at_clients := g.server_to_client_broadcast prep.1
  let work_at_clients := client_data.map fun d => g.client_work (d, context_at_clients)
  let intermediate := g.client_to_server_aggregation (prep.2, work_at_clients)
  g.server_result (prep.2, intermediate)

/-- Modelled from the spec: one structural step of a canonicalized round
computation, as walked by the Shape Matcher. The first four constructors are
the skeleton steps of the seven-function template (broadcast, local work,
aggregation, result); the last five are the skeleton steps of the five-lambda
template. A round computation IR is a list of such steps. -/
inductive Step (S D C U A R X BI BO AI AO T : Type) where
  | broadcast (prepare : S → C)
  | work (work : D × C → ClientUpdate U)
  | aggregate (zero : Unit → A) (accumulate : A × U → A) (merge : A × A → A)
      (report : A → R) (bitwidth : Int) (maxInput : Int) (modulus : Int)
  | result (update : S × (R × SecureChannels) → S × X)
  | serverPrepare (f : S → BI × T)
  | broadcastLambda (f : BI → BO)
  | clientWork (f : D × BO → AI)
  | aggregationLambda (f : T × List AI → AO)
  | serverResult (f : T × AO → S × X)

/-- Modelled from the spec: the named template slots reported by the Shape
Matcher's first-failure diagnostics. -/
inductive Slot where
  | broadcastSlot
  | workSlot
  | aggregationSlot
  | resultSlot
  | serverPrepareSlot
  | broadcastLambdaSlot
  | clientWorkSlot
  | aggregationLambdaSlot
  | serverResultSlot
  | contextSlot
  | clientProcessingSlot
deriving DecidableEq, Repr

/-- Modelled from the spec: compilation errors; the Shape Matcher fails with a
`ShapeMismatchError` naming the first slot that could not be bound. -/
inductive CompileError where
  | shapeMismatch (slot : Slot)
deriving DecidableEq, Repr

/-- Modelled from the spec: the Shape Matcher for the seven-function template,
a deterministic single top-down pass over the expected skeleton (broadcast,
local work, aggregation, result, in that fixed order) with no backtracking:
the first step whose expected construct is absent aborts the match with a
`ShapeMismatchError` naming that slot. -/
def matchMrf {S D C U A R X BI BO AI AO T : Type} :
    List (Step S D C U A R X BI BO AI AO T) →
    Except CompileError (MapReduceForm S D C U A R X)
  | Step.broadcast p :: rest1 =>
    match rest1 with
    | Step.work w :: rest2 =>
      match rest2 with
      | Step.aggregate z a m r bw mi mo :: rest3 =>
        match rest3 with
        | [Step.result u] =>
          Except.ok ⟨p, w, z, a, m, r, bw, mi, mo, u⟩
        | _ => Except.error (CompileError.shapeMismatch Slot.resultSlot)
      | _ => Except.error (CompileError.shapeMismatch Slot.aggregationSlot)
    | _ => Except.error (CompileError.shapeMismatch Slot.workSlot)
  | _ => Except.error (CompileError.shapeMismatch Slot.broadcastSlot)

/-- Modelled from the spec: the Shape Matcher for the five-lambda template,
the same single-pass first-failure discipline over the five-lambda skeleton. -/
def matchDaf {S D C U A R X BI BO AI AO T : Type} :
    List (Step S D C U A R X BI BO AI AO T) →
    Except CompileError (DistributeAggregateForm S D X BI BO AI AO T)
  | Step.serverPrepare sp :: rest1 =>
    match rest1 with
    | Step.broadcastLambda bl :: rest2 =>
      match rest2 with
      | Step.clientWork cw :: rest3 =>
        match rest3 with
        | Step.aggregationLambda al :: rest4 =>
          match rest4 with
          | [Step.serverResult sr] => Except.ok ⟨sp, bl, cw, al, sr⟩
          | _ => Except.error (CompileError.shapeMismatch Slot.serverResultSlot)
        | _ => Except.error (CompileError.shapeMismatch Slot.aggregationLambdaSlot)
      | _ => Except.error (CompileError.shapeMismatch Slot.clientWorkSlot)
    | _ => Except.error (CompileError.shapeMismatch Slot.broadcastLambdaSlot)
  | _ => Except.error (CompileError.shapeMismatch Slot.serverPrepareSlot)

/-- Modelled from the spec: the Form Synthesizer for the seven-function form
wires the slots through the corresponding intrinsics in the canonical round
template order, mirroring the Shape Matcher in reverse. -/
def synthMrf {S D C U A R X BI BO AI AO T : Type}
    (F : MapReduceForm S D C U A R X) : List (Step S D C U A R X BI BO AI AO T) :=
  [Step.broadcast F.prepare,
   Step.work F.work,
   Step.aggregate F.zero F.accumulate F.merge F.report
     F.secure_sum_bitwidth F.secure_sum_max_input F.secure_modular_sum_modulus,
   Step.result F.update]

/-- Modelled from the spec: the Form Synthesizer for the five-lambda form. -/
def synthDaf {S D C U A R X BI BO AI AO T : Type}
    (G : DistributeAggregateForm S D X BI BO AI AO T) :
    List (Step S D C U A R X BI BO AI AO T) :=
  [Step.serverPrepare G.server_prepare,
   Step.broadcastLambda G.server_to_client_broadcast,
   Step.clientWork G.client_work,
   Step.aggregationLambda G.client_to_server_aggregation,
   Step.serverResult G.server_result]

/-- Evaluation environment for a round computation IR: the values produced so
far by the executed steps (server state and client data are the round inputs;
the remaining fields start empty). -/
structure EvalEnv (S D C U A R X BI BO AI AO T : Type) where
  serverState : S
  clientData : List D
  clientInput : Option C
  clientUpdates : Option (List (ClientUpdate U))
  globalUpdate : Option (R × SecureChannels)
  broadcastInput : Option BI
  tempState : Option T
  clientContext : Option BO
  workAtClients : Option (List AI)
  aggregateAtServer : Option AO
  outputVal : Option (S × X)

/-- Initial evaluation environment of a round on a given server state and
collection of per-client data. -/
def initEnv {S D C U A R X BI BO AI AO T : Type} (s : S) (ds : List D) :
    EvalEnv S D C U A R X BI BO AI AO T :=
  ⟨s, ds, none, none, none, none, none, none, none, none, none⟩

/-- Execute one structural step of a round computation: each step consumes the
values its construct depends on (failing if they are not yet available) and
records its own result. The step semantics transcribe the two `round_comp`
pseudocode blocks of the module docstring. -/
def stepEval {S D C U A R X BI BO AI AO T : Type}
    (env : EvalEnv S D C U A R X BI BO AI AO T) :
    Step S D C U A R X BI BO AI AO T →
    Option (EvalEnv S D C U A R X BI BO AI AO T)
  | Step.broadcast p =>
    some ⟨env.serverState, env.clientData, some (p env.serverState),
      env.clientUpdates, env.globalUpdate, env.broadcastInput, env.tempState,
      env.clientContext, env.workAtClients, env.aggregateAtServer, env.outputVal⟩
  | Step.work w =>
    match env.clientInput with
    | some c =>
      some ⟨env.serverState, env.clientData, env.clientInput,
        some (env.clientData.map fun d => w (d, c)),
        env.globalUpdate, env.broadcastInput, env.tempState,
        env.clientContext, env.workAtClients, env.aggregateAtServer, env.outputVal⟩
    | none => none
  | Step.aggregate z a m r bw mi mo =>
    match env.clientUpdates with
    | some cus =>
      some ⟨env.serverState, env.clientData, env.clientInput, env.clientUpdates,
        some (plainAggregate z a r (cus.map fun cu => cu.1),
          secureSumBitwidth (cus.map fun cu => cu.2.1) bw,
          secureSumMaxInput (cus.map fun cu => cu.2.2.1) mi,
          secureModularSum (cus.map fun cu => cu.2.2.2) mo),
        env.broadcastInput, env.tempState, env.clientContext, env.workAtClients,
        env.aggregateAtServer, env.outputVal⟩
    | none => none
  | Step.result u =>
    match env.globalUpdate with
    | some g =>
      some ⟨env.serverState, env.clientData, env.clientInput, env.clientUpdates,
        env.globalUpdate, env.broadcastInput, env.tempState, env.clientContext,
        env.workAtClients, env.aggregateAtServer,
        some (u (env.serverState, g))⟩
    | none => none
  | Step.serverPrepare f =>
    some ⟨env.serverState, env.clientData, env.clientInput, env.clientUpdates,
      env.globalUpdate, some (f env.serverState).1, some (f env.serverState).2,
      env.clientContext, env.workAtClients, env.aggregateAtServer, env.outputVal⟩
  | Step.broadcastLambda f =>
    match env.broadcastInput with
    | some bi =>
      some ⟨env.serverState, env.clientData, env.clientInput, env.clientUpdates,
        env.globalUpdate, env.broadcastInput, env.tempState, some (f bi),
        env.workAtClients, env.aggregateAtServer, env.outputVal⟩
    | none => none
  | Step.clientWork f =>
    match env.clientContext with
    | some bo =>
      some ⟨env.serverState, env.clientData, env.clientInput, env.clientUpdates,
        env.globalUpdate, env.broadcastInput, env.tempState, env.clientContext,
        some (env.clientData.map fun d => f (d, bo)),
        env.aggregateAtServer, env.outputVal⟩
    | none => none
  | Step.aggregationLambda f =>
    match env.tempState, env.workAtClients with
    | some t, some ws =>
      some ⟨env.serverState, env.clientData, env.clientInput, env.clientUpdates,
        env.globalUpdate, env.broadcastInput, env.tempState, env.clientContext,
        env.workAtClients, some (f (t, ws)), env.outputVal⟩
    | _, _ => none
  | Step.serverResult f =>
    match env.tempState, env.aggregateAtServer with
    | some t, some ao =>
      some ⟨env.serverState, env.clientData, env.clientInput, env.clientUpdates,
        env.globalUpdate, env.broadcastInput, env.tempState, env.clientContext,
        env.workAtClients, env.aggregateAtServer, some (f (t, ao))⟩
    | _, _ => none

/-- Execute a list of steps from a given environment. -/
def evalSteps {S D C U A R X BI BO AI AO T : Type} :
    List (Step S D C U A R X BI BO AI AO T) →
    EvalEnv S D C U A R X BI BO AI AO T →
    Option (EvalEnv S D C U A R X BI BO AI AO T)
  | [], env => some env
  | st :: rest, env =>
    match stepEval env st with
    | some env2 => evalSteps rest env2
    | none => none

/-- Round semantics of a round computation IR: execute its steps on the round
inputs and return the final `(new_server_state, server_output)` pair, `none`
if some step's dependencies were never produced or the round produced no
output. Both directions of the compiler are compared under this semantics. -/
def evalRound {S D C U A R X BI BO AI AO T : Type}
    (steps : List (Step S D C U A R X BI BO AI AO T)) (s : S) (ds : List D) :
    Option (S × X) :=
  match evalSteps steps (initEnv s ds) with
  | some env => env.outputVal
  | none => none

/-- Modelled from the spec: the two supported templates of the compile
direction. -/
inductive Template where
  | sevenFunction
  | fiveLambda
deriving DecidableEq, Repr

/-- A factored form: the result of a successful compile under one of the two
templates. -/
inductive Form (S D C U A R X BI BO AI AO T : Type) where
  | mrf (F : MapReduceForm S D C U A R X)
  | daf (G : DistributeAggregateForm S D X BI BO AI AO T)

/-- Modelled from the spec: `compile(round_computation, template) ->
Result<Form, CompileError>`, dispatching to the Shape Matcher of the requested
template. -/
def compile {S D C U A R X BI BO AI AO T : Type} (t : Template)
    (steps : List (Step S D C U A R X BI BO AI AO T)) :
    Except CompileError (Form S D C U A R X BI BO AI AO T) :=
  match t with
  | Template.sevenFunction => (matchMrf steps).map Form.mrf
  | Template.fiveLambda => (matchDaf steps).map Form.daf

/-- Modelled from the spec: `synthesize(form)` rebuilds a full round
computation IR by wiring the slots through the corresponding intrinsics in the
canonical round template order. -/
def synthesize {S D C U A R X BI BO AI AO T : Type} :
    Form S D C U A R X BI BO AI AO T → List (Step S D C U A R X BI BO AI AO T)
  | Form.mrf F => synthMrf F
  | Form.daf G => synthDaf G

/-- Modelled from the spec: the first slot of the seven-function matching
order (broadcast, local work, aggregation, result) whose expected construct is
absent from the given step list; the "first failure" policy says a failing
match reports exactly this slot. -/
def firstUnboundMrf {S D C U A R X BI BO AI AO T : Type} :
    List (Step S D C U A R X BI BO AI AO T) → Slot
  | Step.broadcast _ :: rest1 =>
    match rest1 with
    | Step.work _ :: rest2 =>
      match rest2 with
      | Step.aggregate _ _ _ _ _ _ _ :: _ => Slot.resultSlot
      | _ => Slot.aggregationSlot
    | _ => Slot.workSlot
  | _ => Slot.broadcastSlot

/-- The step IR instantiated at integer payload types, used for the concrete
scenario of the design document. -/
abbrev IStep : Type := Step Int Int Int Int Int Int Int Int Int Int Int Int

/-- The scenario round computation: `S=int, D=int, C=int`; the body broadcasts
the state, each participant returns `(data + input, 0)` (empty secure
channels), the first channel is summed by plain aggregate with zero `0`,
accumulate and merge summation and identity report, and the server updates
`new_state = state + report_result`, also emitting it as the round output. -/
def scenarioSteps : List IStep :=
  [Step.broadcast (fun s => s),
   Step.work (fun dc => (dc.1 + dc.2, (0, 0, 0))),
   Step.aggregate (fun _ => 0) (fun au => au.1 + au.2) (fun aa => aa.1 + aa.2)
     (fun a => a) 0 0 1,
   Step.result (fun sg => (sg.1 + sg.2.1, sg.1 + sg.2.1))]

/-- The slot binding the scenario asserts for the seven-function template:
`prepare` the identity, `work = (d,c) -> (d+c, 0)`, `zero = 0`, summing
accumulate and merge, identity report, and `update = (s,r) -> (s+r, s+r)`. -/
def scenarioForm : MapReduceForm Int Int Int Int Int Int Int :=
  ⟨fun s => s, fun dc => (dc.1 + dc.2, (0, 0, 0)), fun _ => 0,
   fun au => au.1 + au.2, fun aa => aa.1 + aa.2, fun a => a, 0, 0, 1,
   fun sg => (sg.1 + sg.2.1, sg.1 + sg.2.1)⟩

/-- A concrete five-lambda form over integers, used to exercise the
five-lambda direction of the round-trip property. -/
def dafExampleForm : DistributeAggregateForm Int Int Int Int Int Int Int Int :=
  ⟨fun s => (s, s), fun b => b + 1, fun dc => dc.1 * dc.2,
   fun tws => tws.1 + tws.2.foldl (fun a v => a + v) 0,
   fun ta => (ta.1 + ta.2, ta.2)⟩

/-- The canonical step list of `dafExampleForm`. -/
def dafExampleSteps : List IStep := synthDaf dafExampleForm

/-- Types of the collaborator IR's type system, as far as slot signature
bookkeeping needs them: the empty tuple type, a scalar type, pair types, and
the client-placed collection type used in the round signature. -/
inductive Ty where
  | unit
  | int
  | pair (a b : Ty)
  | clients (t : Ty)
deriving DecidableEq, Repr

/-- A local block's checked type signature: domain and codomain. -/
structure SlotSig where
  dom : Ty
  cod : Ty
deriving DecidableEq, Repr

/-- Slot type signatures of a seven-function form, one per named block
(the secure parameter blocks are scalar and carry no connecting types). -/
structure MapReduceFormSig where
  prepare : SlotSig
  work : SlotSig
  zero : SlotSig
  accumulate : SlotSig
  merge : SlotSig
  report : SlotSig
  update : SlotSig
deriving DecidableEq, Repr

/-- Slot type signatures of a five-lambda form, one per named block. -/
structure DistributeAggregateFormSig where
  server_prepare : SlotSig
  server_to_client_broadcast : SlotSig
  client_work : SlotSig
  client_to_server_aggregation : SlotSig
  server_result : SlotSig
deriving DecidableEq, Repr

/-- Modelled from the spec: the ordered constraints checked by the Form
Validator; a failing validation names the first violated one. -/
inductive FormConstraint where
  | workConsumesPrepareOutput
  | workProducesUpdatePair
  | zeroTakesNoArguments
  | accumulateConsumesAccumulatorAndUpdate
  | accumulateProducesAccumulator
  | mergeConsumesTwoAccumulators
  | mergeProducesAccumulator
  | reportConsumesAccumulator
  | updateConsumesStateAndReportOutput
  | updateProducesStateAndOutput
  | serverPrepareProducesContextAndTemp
  | broadcastConsumesContext
  | clientWorkConsumesDataAndBroadcast
  | aggregationConsumesTempAndWork
  | serverResultConsumesTempAndAggregate
  | serverResultProducesStateAndOutput
  | broadcastLambdaRestricted
  | aggregationLambdaRestricted
deriving DecidableEq, Repr

/-- Modelled from the spec: `IncompatibleFormError`, reporting the first
violated constraint only. -/
inductive IncompatibleFormError where
  | firstViolated (c : FormConstraint)
deriving DecidableEq, Repr

/-- Modelled from the spec: the Form Validator for the seven-function form,
checking in order that every adjacent pair of slots has matching connecting
types: `work` consumes the client data together with `prepare`'s output,
`work` produces the update two-tuple `<U,V>`, `zero` takes no arguments,
`accumulate` consumes an accumulator (of `zero`'s output type) and a `U` and
produces an accumulator, `merge` consumes and produces accumulators, `report`
consumes `merge`'s output, and `update` consumes the state together with
`report`'s output and produces the state-output pair. -/
def validateMrfSig (f : MapReduceFormSig) : Except IncompatibleFormError Unit :=
  match f.work.dom with
  | Ty.pair _ c =>
    if c = f.prepare.cod then
      match f.work.cod with
      | Ty.pair u _ =>
        if f.zero.dom = Ty.unit then
          if f.accumulate.dom = Ty.pair f.zero.cod u then
            if f.accumulate.cod = f.zero.cod then
              if f.merge.dom = Ty.pair f.zero.cod f.zero.cod then
                if f.merge.cod = f.zero.cod then
                  if f.report.dom = f.merge.cod then
                    if f.update.dom = Ty.pair f.prepare.dom f.report.cod then
                      match f.update.cod with
                      | Ty.pair s _ =>
                        if s = f.prepare.dom then Except.ok ()
                        else Except.error (IncompatibleFormError.firstViolated
                          FormConstraint.updateProducesStateAndOutput)
                      | _ => Except.error (IncompatibleFormError.firstViolated
                          FormConstraint.updateProducesStateAndOutput)
                    else Except.error (IncompatibleFormError.firstViolated
                      FormConstraint.updateConsumesStateAndReportOutput)
                  else Except.error (IncompatibleFormError.firstViolated
                    FormConstraint.reportConsumesAccumulator)
                else Except.error (IncompatibleFormError.firstViolated
                  FormConstraint.mergeProducesAccumulator)
              else Except.error (IncompatibleFormError.firstViolated
                FormConstraint.mergeConsumesTwoAccumulators)
            else Except.error (IncompatibleFormError.firstViolated
              FormConstraint.accumulateProducesAccumulator)
          else Except.error (IncompatibleFormError.firstViolated
            FormConstraint.accumulateConsumesAccumulatorAndUpdate)
        else Except.error (IncompatibleFormError.firstViolated
          FormConstraint.zeroTakesNoArguments)
      | _ => Except.error (IncompatibleFormError.firstViolated
          FormConstraint.workProducesUpdatePair)
    else Except.error (IncompatibleFormError.firstViolated
      FormConstraint.workConsumesPrepareOutput)
  | _ => Except.error (IncompatibleFormError.firstViolated
      FormConstraint.workConsumesPrepareOutput)

/-- Modelled from the spec: the Form Validator for the five-lambda form,
checking in order that `server_prepare` produces the broadcast-input and
temporary-state pair `<B_I,T>`, the broadcast lambda consumes `B_I`,
`client_work` consumes the client data together with the broadcast output,
the aggregation lambda consumes the temporary state together with the client
work output, and `server_result` consumes the temporary state together with
the aggregation output and produces the state-output pair. -/
def validateDafSig (g : DistributeAggregateFormSig) : Except IncompatibleFormError Unit :=
  match g.server_prepare.cod with
  | Ty.pair bi t =>
    if g.server_to_client_broadcast.dom = bi then
      match g.client_work.dom with
      | Ty.pair _ bo =>
        if bo = g.server_to_client_broadcast.cod then
          if g.client_to_server_aggregation.dom = Ty.pair t g.client_work.cod then
            if g.server_result.dom = Ty.pair t g.client_to_server_aggregation.cod then
              match g.server_result.cod with
              | Ty.pair s _ =>
                if s = g.server_prepare.dom then Except.ok ()
                else Except.error (IncompatibleFormError.firstViolated
                  FormConstraint.serverResultProducesStateAndOutput)
              | _ => Except.error (IncompatibleFormError.firstViolated
                  FormConstraint.serverResultProducesStateAndOutput)
            else Except.error (IncompatibleFormError.firstViolated
              FormConstraint.serverResultConsumesTempAndAggregate)
          else Except.error (IncompatibleFormError.firstViolated
            FormConstraint.aggregationConsumesTempAndWork)
        else Except.error (IncompatibleFormError.firstViolated
          FormConstraint.clientWorkConsumesDataAndBroadcast)
      | _ => Except.error (IncompatibleFormError.firstViolated
          FormConstraint.clientWorkConsumesDataAndBroadcast)
    else Except.error (IncompatibleFormError.firstViolated
      FormConstraint.broadcastConsumesContext)
  | _ => Except.error (IncompatibleFormError.firstViolated
      FormConstraint.serverPrepareProducesContextAndTemp)

/-- The abstract round type of a factored form: state type `S`, per-client
data type `D` and server output type `X`. -/
structure RoundSig where
  stateTy : Ty
  dataTy : Ty
  outputTy : Ty
deriving DecidableEq, Repr

/-- The round type signature `(<S@SERVER,{D}@CLIENTS> -> <S@SERVER,X@SERVER>)`
of a round, as a slot signature over the IR type grammar. -/
def RoundSig.asSlotSig (rs : RoundSig) : SlotSig :=
  ⟨Ty.pair rs.stateTy (Ty.clients rs.dataTy), Ty.pair rs.stateTy rs.outputTy⟩

/-- Modelled from the spec: type-check the round computation synthesized from
a seven-function form by re-tracing the synthesis wiring of the docstring
pseudocode (`broadcast(map(prepare, state))`, mapped `work`,
`federated_aggregate` over channel 0, `update` on the state and the report
output) and returning the round signature it type-checks against, or `none`
if some internal application is ill-typed. -/
def typecheckSynthMrf (f : MapReduceFormSig) : Option RoundSig :=
  match f.work.dom with
  | Ty.pair d c =>
    if c = f.prepare.cod then
      match f.work.cod with
      | Ty.pair u _ =>
        if f.zero.dom = Ty.unit ∧ f.accumulate.dom = Ty.pair f.zero.cod u ∧
            f.accumulate.cod = f.zero.cod ∧
            f.merge.dom = Ty.pair f.zero.cod f.zero.cod ∧
            f.merge.cod = f.zero.cod ∧ f.report.dom = f.zero.cod then
          if f.update.dom = Ty.pair f.prepare.dom f.report.cod then
            match f.update.cod with
            | Ty.pair s x =>
              if s = f.prepare.dom then some ⟨f.prepare.dom, d, x⟩ else none
            | _ => none
          else none
        else none
      | _ => none
    else none
  | _ => none

/-- Modelled from the spec: type-check the round computation synthesized from
a five-lambda form by re-tracing the synthesis wiring of the docstring
pseudocode, returning the round signature it type-checks against. -/
def typecheckSynthDaf (g : DistributeAggregateFormSig) : Option RoundSig :=
  match g.server_prepare.cod with
  | Ty.pair bi t =>
    if g.server_to_client_broadcast.dom = bi then
      match g.client_work.dom with
      | Ty.pair d bo =>
        if bo = g.server_to_client_broadcast.cod then
          if g.client_to_server_aggregation.dom = Ty.pair t g.client_work.cod then
            if g.server_result.dom = Ty.pair t g.client_to_server_aggregation.cod then
              match g.server_result.cod with
              | Ty.pair s x =>
                if s = g.server_prepare.dom then some ⟨g.server_prepare.dom, d, x⟩
                else none
              | _ => none
            else none
          else none
        else none
      | _ => none
    else none
  | _ => none

/-- A valid seven-function slot signature assignment with every abstract type
instantiated at the scalar type. -/
def exampleMrfSig : MapReduceFormSig :=
  ⟨⟨Ty.int, Ty.int⟩,
   ⟨Ty.pair Ty.int Ty.int, Ty.pair Ty.int Ty.int⟩,
   ⟨Ty.unit, Ty.int⟩,
   ⟨Ty.pair Ty.int Ty.int, Ty.int⟩,
   ⟨Ty.pair Ty.int Ty.int, Ty.int⟩,
   ⟨Ty.int, Ty.int⟩,
   ⟨Ty.pair Ty.int Ty.int, Ty.pair Ty.int Ty.int⟩⟩

/-- A valid five-lambda slot signature assignment with every abstract type
instantiated at the scalar type. -/
def exampleDafSig : DistributeAggregateFormSig :=
  ⟨⟨Ty.int, Ty.pair Ty.int Ty.int⟩,
   ⟨Ty.int, Ty.int⟩,
   ⟨Ty.pair Ty.int Ty.int, Ty.int⟩,
   ⟨Ty.pair Ty.int Ty.int, Ty.int⟩,
   ⟨Ty.pair Ty.int Ty.int, Ty.pair Ty.int Ty.int⟩⟩

/-- Modelled from the spec: the fixed enumerable set of cross-tier intrinsic
kinds. -/
inductive IntrinsicKind where
  | federated_broadcast
  | federated_aggregate
  | federated_secure_sum_bitwidth
  | federated_secure_sum
  | federated_secure_modular_sum
deriving DecidableEq, Repr

/-- Broadcast-kind intrinsics: the kinds permitted inside the
`server_to_client_broadcast` lambda. -/
def IntrinsicKind.broadcast_kind : IntrinsicKind → Bool
  | IntrinsicKind.federated_broadcast => true
  | _ => false

/-- Aggregation-kind intrinsics: the kinds permitted inside the
`client_to_server_aggregation` lambda. -/
def IntrinsicKind.aggregation_kind : IntrinsicKind → Bool
  | IntrinsicKind.federated_broadcast => false
  | _ => true

/-- A reference occurring as an intrinsic argument inside a restricted
lambda's block of locals: either a component of the enclosing lambda's
declared argument, or the value of an earlier local of the block. -/
inductive LocalRef where
  | fromArg (component : Nat)
  | fromLocal (index : Nat)
deriving DecidableEq, Repr

/-- One local of a restricted lambda's body: an intrinsic call of some kind,
or some other (non-intrinsic, possibly cross-tier) operation. -/
inductive LocalDef where
  | intrinsicCall (kind : IntrinsicKind) (args : List LocalRef)
  | internalOp (args : List LocalRef)
deriving DecidableEq, Repr

/-- A restricted lambda as described for `server_to_client_broadcast` and
`client_to_server_aggregation`: a block of locals followed by a result tuple
listing which locals are returned, in which order. -/
structure RestrictedLambda where
  locals : List LocalDef
  result : List Nat
deriving DecidableEq, Repr

/-- Whether a local is an intrinsic call of a permitted kind. -/
def LocalDef.isIntrinsicOfKind (permitted : IntrinsicKind → Bool) : LocalDef → Bool
  | LocalDef.intrinsicCall k _ => permitted k
  | LocalDef.internalOp _ => false

/-- Whether a reference points at the enclosing lambda's declared argument. -/
def LocalRef.isArgRef : LocalRef → Bool
  | LocalRef.fromArg _ => true
  | LocalRef.fromLocal _ => false

/-- Whether a local depends only on the enclosing lambda's declared
arguments. -/
def LocalDef.dependsOnlyOnArgs : LocalDef → Bool
  | LocalDef.intrinsicCall _ args => args.all LocalRef.isArgRef
  | LocalDef.internalOp args => args.all LocalRef.isArgRef

/-- Modelled from the spec: the restriction checked on a broadcast or
aggregation lambda: every local is an intrinsic call of the permitted kind
that depends only on the declared arguments, and the lambda returns the
results of its intrinsic calls in the order they are computed. -/
def RestrictedLambda.checkRestricted (permitted : IntrinsicKind → Bool)
    (L : RestrictedLambda) : Bool :=
  L.locals.all (fun d => LocalDef.isIntrinsicOfKind permitted d &&
    LocalDef.dependsOnlyOnArgs d) &&
  decide (L.result = List.range L.locals.length)

/-- The two restricted lambda bodies of a five-lambda form (the other three
blocks are opaque local blocks with no intrinsic restriction). -/
structure DistributeAggregateFormBodies where
  server_to_client_broadcast : RestrictedLambda
  client_to_server_aggregation : RestrictedLambda
deriving DecidableEq, Repr

/-- Modelled from the spec: the Form Validator check that each restricted
lambda of a five-lambda form contains only intrinsics of its permitted kind
and no other cross-tier operation, failing with the first violated
constraint. -/
def validateDafBodies (b : DistributeAggregateFormBodies) :
    Except IncompatibleFormError Unit :=
  if b.server_to_client_broadcast.checkRestricted IntrinsicKind.broadcast_kind then
    if b.client_to_server_aggregation.checkRestricted IntrinsicKind.aggregation_kind then
      Except.ok ()
    else Except.error (IncompatibleFormError.firstViolated
      FormConstraint.aggregationLambdaRestricted)
  else Except.error (IncompatibleFormError.firstViolated
    FormConstraint.broadcastLambdaRestricted)

/-- A pair of valid restricted lambda bodies: one broadcast call, then two
aggregation calls returned in evaluation order. -/
def exampleDafBodies : DistributeAggregateFormBodies :=
  ⟨⟨[LocalDef.intrinsicCall IntrinsicKind.federated_broadcast [LocalRef.fromArg 0]], [0]⟩,
   ⟨[LocalDef.intrinsicCall IntrinsicKind.federated_aggregate
       [LocalRef.fromArg 0, LocalRef.fromArg 1],
     LocalDef.intrinsicCall IntrinsicKind.federated_secure_sum [LocalRef.fromArg 2]],
    [0, 1]⟩⟩

/-- Modelled from the spec: the third factorization exposed by the package,
`BroadcastForm`. The module docstring names it but does not document its
shape; it is modelled as the broadcast-once, local-work prefix of the round
skeleton: a server context computation and a per-client processing block
consuming the broadcast context, with the client results as the round
output. -/
structure BroadcastForm (S C D X : Type) where
  compute_server_context : S → C
  client_processing : D × C → X

/-- One structural step of a broadcast-only round computation. -/
inductive BStep (S C D X : Type) where
  | computeContext (f : S → C)
  | clientProcessing (f : D × C → X)
  | extraneous (tag : Nat)

/-- Modelled from the spec: the Shape Matcher for the broadcast-form template
(`get_broadcast_form_for_computation`), with the same single-pass
first-failure discipline. -/
def matchBroadcastForm {S C D X : Type} :
    List (BStep S C D X) → Except CompileError (BroadcastForm S C D X)
  | BStep.computeContext f :: rest =>
    match rest with
    | [BStep.clientProcessing g] => Except.ok ⟨f, g⟩
    | _ => Except.error (CompileError.shapeMismatch Slot.clientProcessingSlot)
  | _ => Except.error (CompileError.shapeMismatch Slot.contextSlot)

/-- Modelled from the spec: the synthesis direction for the broadcast form
(`get_computation_for_broadcast_form`). -/
def synthBroadcastForm {S C D X : Type} (B : BroadcastForm S C D X) :
    List (BStep S C D X) :=
  [BStep.computeContext B.compute_server_context,
   BStep.clientProcessing B.client_processing]

/-- Evaluation environment of a broadcast-only round. -/
structure BEnv (S C D X : Type) where
  serverState : S
  clientData : List D
  context : Option C
  clientResults : Option (List X)

/-- Execute one step of a broadcast-only round. -/
def bStepEval {S C D X : Type} (env : BEnv S C D X) :
    BStep S C D X → Option (BEnv S C D X)
  | BStep.computeContext f =>
    some ⟨env.serverState, env.clientData, some (f env.serverState),
      env.clientResults⟩
  | BStep.clientProcessing g =>
    match env.context with
    | some c =>
      some ⟨env.serverState, env.clientData, some c,
        some (env.clientData.map fun d => g (d, c))⟩
    | none => none
  | BStep.extraneous _ => none

/-- Execute a list of broadcast-only round steps. -/
def evalBSteps {S C D X : Type} :
    List (BStep S C D X) → BEnv S C D X → Option (BEnv S C D X)
  | [], env => some env
  | st :: rest, env =>
    match bStepEval env st with
    | some env2 => evalBSteps rest env2
    | none => none

/-- Round semantics of a broadcast-only round computation: the per-client
results, if every step's dependencies were produced. -/
def evalBroadcastRound {S C D X : Type} (steps : List (BStep S C D X))
    (s : S) (ds : List D) : Option (List X) :=
  match evalBSteps steps ⟨s, ds, none, none⟩ with
  | some env => env.clientResults
  | none => none

/-- A concrete broadcast form over integers. -/
def exampleBroadcastForm : BroadcastForm Int Int Int Int :=
  ⟨fun s => s * 2, fun dc => dc.1 + dc.2⟩

/-- The step list of a broadcast-only round computation matching
`exampleBroadcastForm`. -/
def exampleBroadcastSteps : List (BStep Int Int Int Int) :=
  [BStep.computeContext (fun s => s * 2),
   BStep.clientProcessing (fun dc => dc.1 + dc.2)]

/-- The public names re-exported by the package `__init__.py`, transcribed
from its import block. -/
def mapreduceExports : List String :=
  ["consolidate_and_extract_local_processing",
   "parse_tff_to_tf",
   "check_computation_compatible_with_map_reduce_form",
   "get_broadcast_form_for_computation",
   "get_computation_for_broadcast_form",
   "get_computation_for_distribute_aggregate_form",
   "get_computation_for_map_reduce_form",
   "get_distribute_aggregate_form_for_computation",
   "get_map_reduce_form_for_computation",
   "get_state_initialization_computation",
   "BroadcastForm",
   "DistributeAggregateForm",
   "MapReduceForm"]

theorem matchMrf_ok_shape {S D C U A R X BI BO AI AO T : Type}
    {steps : List (Step S D C U A R X BI BO AI AO T)}
    {F : MapReduceForm S D C U A R X}
    (h : matchMrf steps = Except.ok F) : steps = synthMrf F := by
  cases steps with
  | nil => exact Except.noConfusion h
  | cons s1 rest1 =>
    cases s1
    case broadcast p =>
      cases rest1 with
      | nil => exact Except.noConfusion h
      | cons s2 rest2 =>
        cases s2
        case work w =>
          cases rest2 with
          | nil => exact Except.noConfusion h
          | cons s3 rest3 =>
            cases s3
            case aggregate z a m r bw mi mo =>
              cases rest3 with
              | nil => exact Except.noConfusion h
              | cons s4 rest4 =>
                cases s4
                case result u =>
                  cases rest4 with
                  | nil =>
                    injection h with h2
                    rw [← h2]
                    rfl
                  | cons s5 rest5 => exact Except.noConfusion h
                all_goals exact Except.noConfusion h
            all_goals exact Except.noConfusion h
        all_goals exact Except.noConfusion h
    all_goals exact Except.noConfusion h

theorem matchDaf_ok_shape {S D C U A R X BI BO AI AO T : Type}
    {steps : List (Step S D C U A R X BI BO AI AO T)}
    {G : DistributeAggregateForm S D X BI BO AI AO T}
    (h : matchDaf steps = Except.ok G) : steps = synthDaf G := by
  cases steps with
  | nil => exact Except.noConfusion h
  | cons s1 rest1 =>
    cases s1
    case serverPrepare sp =>
      cases rest1 with
      | nil => exact Except.noConfusion h
      | cons s2 rest2 =>
        cases s2
        case broadcastLambda bl =>
          cases rest2 with
          | nil => exact Except.noConfusion h
          | cons s3 rest3 =>
            cases s3
            case clientWork cw =>
              cases rest3 with
              | nil => exact Except.noConfusion h
              | cons s4 rest4 =>
                cases s4
                case aggregationLambda al =>
                  cases rest4 with
                  | nil => exact Except.noConfusion h
                  | cons s5 rest5 =>
                    cases s5
                    case serverResult sr =>
                      cases rest5 with
                      | nil =>
                        injection h with h2
                        rw [← h2]
                        rfl
                      | cons s6 rest6 => exact Except.noConfusion h
                    all_goals exact Except.noConfusion h
                all_goals exact Except.noConfusion h
            all_goals exact Except.noConfusion h
        all_goals exact Except.noConfusion h
    all_goals exact Except.noConfusion h

theorem evalRound_synthMrf {S D C U A R X BI BO AI AO T : Type}
    (F : MapReduceForm S D C U A R X) (s : S) (ds : List D) :
    evalRound (synthMrf F : List (Step S D C U A R X BI BO AI AO T)) s ds =
      some (F.round s ds) := rfl

theorem evalRound_synthDaf {S D C U A R X BI BO AI AO T : Type}
    (G : DistributeAggregateForm S D X BI BO AI AO T) (s : S) (ds : List D) :
    evalRound (synthDaf G : List (Step S D C U A R X BI BO AI AO T)) s ds =
      some (G.round s ds) := rfl

theorem compile_ok_shape {S D C U A R X BI BO AI AO T : Type}
    {t : Template} {steps : List (Step S D C U A R X BI BO AI AO T)}
    {F : Form S D C U A R X BI BO AI AO T}
    (h : compile t steps = Except.ok F) : steps = synthesize F := by
  cases t with
  | sevenFunction =>
    cases hm : @matchMrf S D C U A R X BI BO AI AO T steps with
    | error e => simp [compile, hm, Except.map] at h
    | ok F0 =>
      simp [compile, hm, Except.map] at h
      rw [← h]
      exact matchMrf_ok_shape hm
  | fiveLambda =>
    cases hm : @matchDaf S D C U A R X BI BO AI AO T steps with
    | error e => simp [compile, hm, Except.map] at h
    | ok G0 =>
      simp [compile, hm, Except.map] at h
      rw [← h]
      exact matchDaf_ok_shape hm

theorem validateMrfSig_ok_equations {f : MapReduceFormSig}
    (h : validateMrfSig f = Except.ok ()) :
    (∃ d, f.work.dom = Ty.pair d f.prepare.cod) ∧
    (∃ u v, f.work.cod = Ty.pair u v ∧ f.accumulate.dom = Ty.pair f.zero.cod u) ∧
    f.zero.dom = Ty.unit ∧
    f.accumulate.cod = f.zero.cod ∧
    f.merge.dom = Ty.pair f.zero.cod f.zero.cod ∧
    f.merge.cod = f.zero.cod ∧
    f.report.dom = f.merge.cod ∧
    f.update.dom = Ty.pair f.prepare.dom f.report.cod ∧
    (∃ x, f.update.cod = Ty.pair f.prepare.dom x) := by
  unfold validateMrfSig at h
  repeat' split at h
  all_goals try (exfalso; exact Except.noConfusion h)
  simp_all

theorem validateDafSig_ok_equations {g : DistributeAggregateFormSig}
    (h : validateDafSig g = Except.ok ()) :
    (∃ bi t, g.server_prepare.cod = Ty.pair bi t ∧
      g.server_to_client_broadcast.dom = bi ∧
      (∃ d, g.client_work.dom = Ty.pair d g.server_to_client_broadcast.cod) ∧
      g.client_to_server_aggregation.dom = Ty.pair t g.client_work.cod ∧
      g.server_result.dom = Ty.pair t g.client_to_server_aggregation.cod) ∧
    (∃ x, g.server_result.cod = Ty.pair g.server_prepare.dom x) := by
  unfold validateDafSig at h
  repeat' split at h
  all_goals try (exfalso; exact Except.noConfusion h)
  simp_all

theorem matchBroadcastForm_ok_shape {S C D X : Type}
    {steps : List (BStep S C D X)} {B : BroadcastForm S C D X}
    (h : matchBroadcastForm steps = Except.ok B) : steps = synthBroadcastForm B := by
  cases steps with
  | nil => exact Except.noConfusion h
  | cons s1 rest1 =>
    cases s1
    case computeContext f =>
      cases rest1 with
      | nil => exact Except.noConfusion h
      | cons s2 rest2 =>
        cases s2
        case clientProcessing g =>
          cases rest2 with
          | nil =>
            injection h with h2
            rw [← h2]
            rfl
          | cons s3 rest3 => exact Except.noConfusion h
        all_goals exact Except.noConfusion h
    all_goals exact Except.noConfusion h

/-- C1: for every round computation and either template (seven-function or
five-lambda), if compilation succeeds with form `F` then the computation
synthesized from `F` is semantically equivalent to the original: on every
server state and client data collection it produces the same round result
(and by construction both have the same round type
`S → List D → Option (S × X)`). -/
theorem compile_synthesize_roundtrip {S D C U A R X BI BO AI AO T : Type}
    (t : Template) (steps : List (Step S D C U A R X BI BO AI AO T))
    (F : Form S D C U A R X BI BO AI AO T)
    (h : compile t steps = Except.ok F) (s : S) (ds : List D) :
    evalRound (synthesize F) s ds = evalRound steps s ds := by
  rw [compile_ok_shape h]

theorem compile_synthesize_roundtrip_witness :
    evalRound (synthesize (Form.mrf scenarioForm :
        Form Int Int Int Int Int Int Int Int Int Int Int Int)) 5 [1, 2, 3] =
      evalRound scenarioSteps 5 [1, 2, 3] ∧
    evalRound (synthesize (Form.daf dafExampleForm :
        Form Int Int Int Int Int Int Int Int Int Int Int Int)) 4 [2, 3] =
      evalRound dafExampleSteps 4 [2, 3] :=
  ⟨compile_synthesize_roundtrip Template.sevenFunction scenarioSteps _ rfl 5 [1, 2, 3],
   compile_synthesize_roundtrip Template.fiveLambda dafExampleSteps _ rfl 4 [2, 3]⟩

/-- C2: the seven-function Shape Matcher either succeeds, or it fails with a
`ShapeMismatchError` naming exactly the first slot of the fixed matching order
(broadcast, local work, aggregation, result) whose expected construct is
absent; in particular a round computation whose aggregation step is missing
(its result step follows the work step directly) is reported at the
aggregation slot, never at a downstream slot. -/
theorem shape_matcher_first_failure {S D C U A R X BI BO AI AO T : Type} :
    (∀ steps : List (Step S D C U A R X BI BO AI AO T),
      (∃ F, matchMrf steps = Except.ok F) ∨
        matchMrf steps =
          Except.error (CompileError.shapeMismatch (firstUnboundMrf steps))) ∧
    (∀ (p : S → C) (w : D × C → ClientUpdate U)
        (u : S × (R × SecureChannels) → S × X)
        (rest : List (Step S D C U A R X BI BO AI AO T)),
      matchMrf (Step.broadcast p :: Step.work w :: Step.result u :: rest) =
        Except.error (CompileError.shapeMismatch Slot.aggregationSlot)) := by
  constructor
  · intro steps
    cases steps with
    | nil => exact Or.inr rfl
    | cons s1 rest1 =>
      cases s1
      case broadcast p =>
        cases rest1 with
        | nil => exact Or.inr rfl
        | cons s2 rest2 =>
          cases s2
          case work w =>
            cases rest2 with
            | nil => exact Or.inr rfl
            | cons s3 rest3 =>
              cases s3
              case aggregate z a m r bw mi mo =>
                cases rest3 with
                | nil => exact Or.inr rfl
                | cons s4 rest4 =>
                  cases s4
                  case result u =>
                    cases rest4 with
                    | nil => exact Or.inl ⟨⟨p, w, z, a, m, r, bw, mi, mo, u⟩, rfl⟩
                    | cons s5 rest5 => exact Or.inr rfl
                  all_goals exact Or.inr rfl
              all_goals exact Or.inr rfl
          all_goals exact Or.inr rfl
      all_goals exact Or.inr rfl
  · intro p w u rest
    rfl

/-- C3: in every seven-function slot signature assignment accepted by the
Form Validator, the output type of `zero` is the accumulator-argument type of
both `accumulate` and `merge`, the output type of `merge` is the input type of
`report`, and across all seven blocks the output type of each slot is the
input type expected by its consumer (`prepare` to `work`, `work`'s first
channel to `accumulate`, `accumulate` and `merge` back to the accumulator,
`report` to `update`, and the state type through `prepare`/`update`). -/
theorem mrf_validator_type_consistency {f : MapReduceFormSig}
    (h : validateMrfSig f = Except.ok ()) :
    (∃ u v, f.work.cod = Ty.pair u v ∧ f.accumulate.dom = Ty.pair f.zero.cod u) ∧
    f.merge.dom = Ty.pair f.zero.cod f.zero.cod ∧
    f.accumulate.cod = f.zero.cod ∧
    f.merge.cod = f.zero.cod ∧
    f.report.dom = f.merge.cod ∧
    (∃ d, f.work.dom = Ty.pair d f.prepare.cod) ∧
    f.update.dom = Ty.pair f.prepare.dom f.report.cod ∧
    (∃ x, f.update.cod = Ty.pair f.prepare.dom x) := by
  obtain ⟨h1, h2, h3, h4, h5, h6, h7, h8, h9⟩ := validateMrfSig_ok_equations h
  exact ⟨h2, h5, h4, h6, h7, h1, h8, h9⟩

theorem mrf_validator_type_consistency_witness :
    (∃ u v, exampleMrfSig.work.cod = Ty.pair u v ∧
      exampleMrfSig.accumulate.dom = Ty.pair exampleMrfSig.zero.cod u) ∧
    exampleMrfSig.merge.dom =
      Ty.pair exampleMrfSig.zero.cod exampleMrfSig.zero.cod ∧
    exampleMrfSig.accumulate.cod = exampleMrfSig.zero.cod ∧
    exampleMrfSig.merge.cod = exampleMrfSig.zero.cod ∧
    exampleMrfSig.report.dom = exampleMrfSig.merge.cod ∧
    (∃ d, exampleMrfSig.work.dom = Ty.pair d exampleMrfSig.prepare.cod) ∧
    exampleMrfSig.update.dom =
      Ty.pair exampleMrfSig.prepare.dom exampleMrfSig.report.cod ∧
    (∃ x, exampleMrfSig.update.cod = Ty.pair exampleMrfSig.prepare.dom x) :=
  mrf_validator_type_consistency rfl

/-- C4: whenever the Shape Matcher accepts a round computation as a
seven-function form `F`, the evaluation of the aggregation step demultiplexes
the client-update two-tuple produced by `work` (whose declared slot signature
is `(<D,C> -> <U,V>)`, the secure channels living in `V`) into four parallel
channels: channel 0 is bound to the `zero`/`accumulate`/`merge`/`report`
plain aggregation and the remaining channels feed, positionally,
`federated_secure_sum_bitwidth`, `federated_secure_sum` and
`federated_secure_modular_sum` with the three parameter blocks. -/
theorem aggregation_demultiplexes_channels {S D C U A R X BI BO AI AO T : Type}
    (steps : List (Step S D C U A R X BI BO AI AO T))
    (F : MapReduceForm S D C U A R X)
    (h : matchMrf steps = Except.ok F) (s : S) (ds : List D) :
    evalRound steps s ds =
      some (F.update (s,
        (plainAggregate F.zero F.accumulate F.report
          ((ds.map fun d => F.work (d, F.prepare s)).map fun cu => cu.1),
         secureSumBitwidth
           ((ds.map fun d => F.work (d, F.prepare s)).map fun cu => cu.2.1)
           F.secure_sum_bitwidth,
         secureSumMaxInput
           ((ds.map fun d => F.work (d, F.prepare s)).map fun cu => cu.2.2.1)
           F.secure_sum_max_input,
         secureModularSum
           ((ds.map fun d => F.work (d, F.prepare s)).map fun cu => cu.2.2.2)
           F.secure_modular_sum_modulus))) := by
  rw [matchMrf_ok_shape h]
  rfl

theorem aggregation_demultiplexes_channels_witness :
    evalRound scenarioSteps (5 : Int) [1, 2, 3] =
      some (scenarioForm.update (5,
        (plainAggregate scenarioForm.zero scenarioForm.accumulate
          scenarioForm.report
          (([1, 2, 3].map fun d => scenarioForm.work (d, scenarioForm.prepare 5)).map
            fun cu => cu.1),
         secureSumBitwidth
           (([1, 2, 3].map fun d => scenarioForm.work (d, scenarioForm.prepare 5)).map
             fun cu => cu.2.1)
           scenarioForm.secure_sum_bitwidth,
         secureSumMaxInput
           (([1, 2, 3].map fun d => scenarioForm.work (d, scenarioForm.prepare 5)).map
             fun cu => cu.2.2.1)
           scenarioForm.secure_sum_max_input,
         secureModularSum
           (([1, 2, 3].map fun d => scenarioForm.work (d, scenarioForm.prepare 5)).map
             fun cu => cu.2.2.2)
           scenarioForm.secure_modular_sum_modulus))) :=
  aggregation_demultiplexes_channels scenarioSteps scenarioForm rfl 5 [1, 2, 3]

/-- C5: in every pair of restricted lambda bodies accepted by the Form
Validator, the `server_to_client_broadcast` body consists exclusively of
broadcast-kind intrinsic calls and the `client_to_server_aggregation` body
consists exclusively of aggregation-kind intrinsic calls (so no other
cross-tier operation occurs in either), every call depends only on the
enclosing lambda's declared arguments, and each lambda returns the results of
its intrinsic calls in the order they are computed. -/
theorem daf_restricted_lambda_invariants (b : DistributeAggregateFormBodies)
    (h : validateDafBodies b = Except.ok ()) :
    (∀ d ∈ b.server_to_client_broadcast.locals,
      LocalDef.isIntrinsicOfKind IntrinsicKind.broadcast_kind d = true ∧
      LocalDef.dependsOnlyOnArgs d = true) ∧
    b.server_to_client_broadcast.result =
      List.range b.server_to_client_broadcast.locals.length ∧
    (∀ d ∈ b.client_to_server_aggregation.locals,
      LocalDef.isIntrinsicOfKind IntrinsicKind.aggregation_kind d = true ∧
      LocalDef.dependsOnlyOnArgs d = true) ∧
    b.client_to_server_aggregation.result =
      List.range b.client_to_server_aggregation.locals.length := by
  unfold validateDafBodies at h
  split at h
  · split at h
    · rename_i h1 h2
      unfold RestrictedLambda.checkRestricted at h1 h2
      simp only [Bool.and_eq_true, List.all_eq_true, decide_eq_true_eq] at h1 h2
      exact ⟨fun d hd => h1.1 d hd, h1.2, fun d hd => h2.1 d hd, h2.2⟩
    · exact Except.noConfusion h
  · exact Except.noConfusion h

theorem daf_restricted_lambda_invariants_witness :
    (∀ d ∈ exampleDafBodies.server_to_client_broadcast.locals,
      LocalDef.isIntrinsicOfKind IntrinsicKind.broadcast_kind d = true ∧
      LocalDef.dependsOnlyOnArgs d = true) ∧
    exampleDafBodies.server_to_client_broadcast.result =
      List.range exampleDafBodies.server_to_client_broadcast.locals.length ∧
    (∀ d ∈ exampleDafBodies.client_to_server_aggregation.locals,
      LocalDef.isIntrinsicOfKind IntrinsicKind.aggregation_kind d = true ∧
      LocalDef.dependsOnlyOnArgs d = true) ∧
    exampleDafBodies.client_to_server_aggregation.result =
      List.range exampleDafBodies.client_to_server_aggregation.locals.length :=
  daf_restricted_lambda_invariants exampleDafBodies rfl

/-- C6: every slot signature assignment accepted by the Form Validator (of
either form) yields a synthesized round computation that type-checks, and the
round signature it type-checks against is exactly
`(<S@SERVER,{D}@CLIENTS> -> <S@SERVER,X@SERVER>)` for the form's abstract
state, client-data and output types. -/
theorem synthesized_round_typechecks (f : MapReduceFormSig)
    (g : DistributeAggregateFormSig)
    (hf : validateMrfSig f = Except.ok ())
    (hg : validateDafSig g = Except.ok ()) :
    (∃ d x, f.work.dom = Ty.pair d f.prepare.cod ∧
      f.update.cod = Ty.pair f.prepare.dom x ∧
      typecheckSynthMrf f = some ⟨f.prepare.dom, d, x⟩ ∧
      RoundSig.asSlotSig ⟨f.prepare.dom, d, x⟩ =
        ⟨Ty.pair f.prepare.dom (Ty.clients d), Ty.pair f.prepare.dom x⟩) ∧
    (∃ d x, g.client_work.dom = Ty.pair d g.server_to_client_broadcast.cod ∧
      g.server_result.cod = Ty.pair g.server_prepare.dom x ∧
      typecheckSynthDaf g = some ⟨g.server_prepare.dom, d, x⟩ ∧
      RoundSig.asSlotSig ⟨g.server_prepare.dom, d, x⟩ =
        ⟨Ty.pair g.server_prepare.dom (Ty.clients d),
         Ty.pair g.server_prepare.dom x⟩) := by
  constructor
  · obtain ⟨⟨d, hwd⟩, ⟨u, v, hwc, hacc⟩, hz, hacod, hmd, hmc, hrd, hud, ⟨x, huc⟩⟩ :=
      validateMrfSig_ok_equations hf
    have hrz : f.report.dom = f.zero.cod := hrd.trans hmc
    refine ⟨d, x, hwd, huc, ?_, rfl⟩
    simp [typecheckSynthMrf, hwd, hwc, hz, hacc, hacod, hmd, hmc, hrz, hud, huc]
  · obtain ⟨⟨bi, t, hpc, hbd, ⟨d, hcw⟩, had, hrdm⟩, ⟨x, hrc⟩⟩ :=
      validateDafSig_ok_equations hg
    refine ⟨d, x, hcw, hrc, ?_, rfl⟩
    simp [typecheckSynthDaf, hpc, hbd, hcw, had, hrdm, hrc]

theorem synthesized_round_typechecks_witness :
    (∃ d x, exampleMrfSig.work.dom = Ty.pair d exampleMrfSig.prepare.cod ∧
      exampleMrfSig.update.cod = Ty.pair exampleMrfSig.prepare.dom x ∧
      typecheckSynthMrf exampleMrfSig = some ⟨exampleMrfSig.prepare.dom, d, x⟩ ∧
      RoundSig.asSlotSig ⟨exampleMrfSig.prepare.dom, d, x⟩ =
        ⟨Ty.pair exampleMrfSig.prepare.dom (Ty.clients d),
         Ty.pair exampleMrfSig.prepare.dom x⟩) ∧
    (∃ d x, exampleDafSig.client_work.dom =
        Ty.pair d exampleDafSig.server_to_client_broadcast.cod ∧
      exampleDafSig.server_result.cod =
        Ty.pair exampleDafSig.server_prepare.dom x ∧
      typecheckSynthDaf exampleDafSig =
        some ⟨exampleDafSig.server_prepare.dom, d, x⟩ ∧
      RoundSig.asSlotSig ⟨exampleDafSig.server_prepare.dom, d, x⟩ =
        ⟨Ty.pair exampleDafSig.server_prepare.dom (Ty.clients d),
         Ty.pair exampleDafSig.server_prepare.dom x⟩) :=
  synthesized_round_typechecks exampleMrfSig exampleDafSig rfl rfl

/-- C7: the Form Validator is a pure function of an immutable form value, so
validating an already-validated form (of any of the three validated kinds)
never fails: it returns exactly the same accepting result. -/
theorem validator_idempotent_on_validated (f : MapReduceFormSig)
    (g : DistributeAggregateFormSig) (b : DistributeAggregateFormBodies)
    (hf : validateMrfSig f = Except.ok ())
    (hg : validateDafSig g = Except.ok ())
    (hb : validateDafBodies b = Except.ok ()) :
    validateMrfSig f = Except.ok () ∧ validateDafSig g = Except.ok () ∧
      validateDafBodies b = Except.ok () :=
  ⟨hf, hg, hb⟩

theorem validator_idempotent_on_validated_witness :
    validateMrfSig exampleMrfSig = Except.ok () ∧
    validateDafSig exampleDafSig = Except.ok () ∧
    validateDafBodies exampleDafBodies = Except.ok () :=
  validator_idempotent_on_validated exampleMrfSig exampleDafSig exampleDafBodies
    rfl rfl rfl

/-- C8 (counterexample): for the scenario round computation with `state = 5`
and participant data `{1, 2, 3}`, the computation synthesized from the
compiled form yields `new_state = 26` (the broadcast input is `5`, the client
updates are `6, 7, 8`, their aggregate is `21`, and `5 + 21 = 26`), not `11`
as the claim states. -/
theorem scenario_new_state_counterexample :
    (evalRound (synthMrf scenarioForm : List IStep) 5 [1, 2, 3]).map Prod.fst =
      some 26 ∧
    (evalRound (synthMrf scenarioForm : List IStep) 5 [1, 2, 3]).map Prod.fst ≠
      some 11 := by
  exact ⟨by decide, by decide⟩

/-- C8 (amended): compiling the scenario round computation against the
seven-function template binds `prepare` to the identity, `work` to
`(d,c) -> (d+c, 0)`, `zero = 0`, summing `accumulate` and `merge`, identity
`report` and `update = (s,r) -> (s+r, s+r)`, and the computation synthesized
from that form, given `state = 5` and participant data `{1, 2, 3}`, yields
`new_state = 26`. -/
theorem scenario_round_amended :
    matchMrf scenarioSteps = Except.ok scenarioForm ∧
    compile Template.sevenFunction scenarioSteps =
      Except.ok (Form.mrf scenarioForm) ∧
    evalRound (synthesize (Form.mrf scenarioForm :
        Form Int Int Int Int Int Int Int Int Int Int Int Int)) 5 [1, 2, 3] =
      some (26, 26) ∧
    evalRound scenarioSteps 5 [1, 2, 3] = some (26, 26) := by
  exact ⟨rfl, rfl, by decide, by decide⟩

/-- C10: the package's public interface exposes the third factorization
`BroadcastForm` with its own extraction and synthesis pair, and the
round-trip property holds for it: whenever the broadcast-form matcher accepts
a computation as form `B`, the computation synthesized from `B` produces the
same per-client results as the original on every input. -/
theorem broadcast_form_exported_and_roundtrips :
    ("BroadcastForm" ∈ mapreduceExports ∧
     "get_broadcast_form_for_computation" ∈ mapreduceExports ∧
     "get_computation_for_broadcast_form" ∈ mapreduceExports) ∧
    ∀ (S C D X : Type) (steps : List (BStep S C D X)) (B : BroadcastForm S C D X),
      matchBroadcastForm steps = Except.ok B →
      ∀ (s : S) (ds : List D),
        evalBroadcastRound (synthBroadcastForm B) s ds =
          evalBroadcastRound steps s ds := by
  refine ⟨⟨by decide, by decide, by decide⟩, ?_⟩
  intro S C D X steps B h s ds
  rw [matchBroadcastForm_ok_shape h]

theorem broadcast_form_roundtrip_witness :
    "BroadcastForm" ∈ mapreduceExports ∧
    evalBroadcastRound (synthBroadcastForm exampleBroadcastForm) (3 : Int) [1, 2] =
      evalBroadcastRound exampleBroadcastSteps 3 [1, 2] :=
  ⟨broadcast_form_exported_and_roundtrips.1.1,
   broadcast_form_exported_and_roundtrips.2 Int Int Int Int exampleBroadcastSteps
     exampleBroadcastForm rfl 3 [1, 2]⟩

end MapReduceBackend
